import Mathlib

/-!
Verification of the attendance-tracker backend (Flask application under
`src/firebase_functions/`).  The Python modules are shallowly embedded:
pure request-handling logic becomes Lean functions, the in-memory stores
(`_USERS`, the SSE broker's client list, the attendance tables) become
explicit state threaded through the functions, and library calls
(PyJWT's `encode`/`decode`, werkzeug's password hashing, psycopg2's
execution of the fixed SQL statements) are modelled by their documented
input/output behaviour.  Machine integers do not overflow in any of the
embedded code paths, so `Int`/`Nat` are used directly.

The file is laid out as definitions first (one namespace per Python
module), then the theorems.
-/

namespace AttendanceTracker

/-- JSON-like values appearing in request payloads (`request.get_json()`). -/
inductive JsonVal where
  | jnull
  | jbool (b : Bool)
  | jint (n : Int)
  | jstr (s : String)
deriving DecidableEq, Repr

/-- A JSON object, as an association list (Python `dict` from `get_json`). -/
abbrev JsonObj := List (String × JsonVal)

/-- Python `dict.get(k)`: first binding of the key, if any. -/
def JsonObj.get? (d : JsonObj) (k : String) : Option JsonVal :=
  (d.find? (fun p => p.1 == k)).map Prod.snd

/-- Python truthiness of a JSON value (`if not data.get("email")`). -/
def JsonVal.truthy : JsonVal → Bool
  | .jnull => false
  | .jbool b => b
  | .jint n => n != 0
  | .jstr s => !s.isEmpty

/-- Truthiness of `d.get(k)`: `False` when the key is absent. -/
def JsonObj.truthyAt (d : JsonObj) (k : String) : Bool :=
  match d.get? k with
  | some v => v.truthy
  | none => false

/-! Python string primitives, spelled out on the character list so that
they evaluate inside the kernel. -/

/-- Python `str.startswith(pre)`. -/
def pyStartsWith (s pre : String) : Bool := pre.data.isPrefixOf s.data

/-- Dropping the first `n` characters (`s[n:]`). -/
def pyDrop (s : String) (n : Nat) : String := ⟨s.data.drop n⟩

/-- The whitespace stripped by Python `str.strip()`. -/
def pyIsSpace (c : Char) : Bool :=
  c == ' ' || c == '\t' || c == '\n' || c == '\r' || c == '\x0b' || c == '\x0c'

/-- Python `str.strip()`. -/
def pyStrip (s : String) : String :=
  ⟨((s.data.dropWhile pyIsSpace).reverse.dropWhile pyIsSpace).reverse⟩

/-- Python `str.lower()` (ASCII case, which covers the embedded inputs). -/
def pyLower (s : String) : String := ⟨s.data.map Char.toLower⟩

/-- Decimal digits to the number they denote. -/
def digitsToNat (l : List Char) : Nat := l.foldl (fun acc c => acc * 10 + (c.toNat - 48)) 0

/-- Python `int(s)` on an optionally signed decimal literal; `none` when
the string does not parse. -/
def pyToInt (s : String) : Option Int :=
  match s.data with
  | '-' :: rest =>
      if rest.isEmpty then none
      else if rest.all Char.isDigit then some (-(digitsToNat rest : Int)) else none
  | l =>
      if l.isEmpty then none
      else if l.all Char.isDigit then some ((digitsToNat l : Int)) else none

/-! ## app/db.py — SSE client queues (`SseClient`) and broker (`SseBroker`) -/

namespace Db

/-- The payload string built by `SseClient.send` (db.py line 224):
`f"event: {event}\ndata: {data}\n\n"`. -/
def ssePayload (event data : String) : String :=
  "event: " ++ event ++ "\ndata: " ++ data ++ "\n\n"

/-- The keep-alive comment yielded by `SseClient.stream` (db.py line 244). -/
def keepAliveChunk : String := ": keep-alive\n\n"

/-- State of one `SseClient`: its pending `_queue`, plus (for reasoning)
the chunks its `stream` generator has yielded so far. -/
structure SseClientState where
  queue : List String
  yielded : List String
deriving DecidableEq, Repr

/-- A fresh `SseClient()`: empty queue, nothing yielded. -/
def SseClientState.start : SseClientState := ⟨[], []⟩

/-- `SseClient.send(event, data)` (db.py lines 223-227): append the
formatted payload to the queue (under the client's condition lock). -/
def sseSend (s : SseClientState) (event data : String) : SseClientState :=
  { s with queue := s.queue ++ [ssePayload event data] }

/-- One iteration of the `SseClient.stream` loop (db.py lines 234-247):
drain the whole queue; if the keep-alive timer fired (`ping`), yield the
keep-alive comment first, then yield the drained payloads in order. -/
def sseDrain (s : SseClientState) (ping : Bool) : SseClientState :=
  { queue := [],
    yielded := s.yielded ++ (if ping then [keepAliveChunk] else []) ++ s.queue }

/-- An interleaving event at one client: a `send` (from `SseBroker.publish`
while this client is registered) or one `stream`-loop iteration.  The
client's condition variable makes each of these atomic with respect to
the queue. -/
inductive SseOp where
  | send (event data : String)
  | drain (ping : Bool)
deriving DecidableEq, Repr

/-- Step function of a single client under an interleaving. -/
def sseStep (s : SseClientState) : SseOp → SseClientState
  | .send e d => sseSend s e d
  | .drain p => sseDrain s p

/-- Run a whole interleaving from a fresh client. -/
def sseRun (ops : List SseOp) : SseClientState :=
  ops.foldl sseStep SseClientState.start

/-- The payloads appended by the `send`s of an interleaving, in order. -/
def sentPayloads (ops : List SseOp) : List String :=
  ops.filterMap (fun op =>
    match op with
    | .send e d => some (ssePayload e d)
    | .drain _ => none)

/-- `SseBroker` state (db.py lines 191-213): the guarded list of
`(client_id, client)` pairs and the id counter.  `κ` stands for the
`SseClient` object identity. -/
structure BrokerState (κ : Type) where
  clients : List (Nat × κ)
  next_id : Nat
deriving Repr

/-- `SseBroker.__init__`: no clients, `_next_id = 1`. -/
def BrokerState.start {κ : Type} : BrokerState κ := ⟨[], 1⟩

/-- `SseBroker.register` (db.py lines 199-204): take the lock, hand out
the current `_next_id`, increment it, append the client. -/
def BrokerState.register {κ : Type} (s : BrokerState κ) (c : κ) : Nat × BrokerState κ :=
  (s.next_id, { clients := s.clients ++ [(s.next_id, c)], next_id := s.next_id + 1 })

/-- `SseBroker.unregister` (db.py lines 206-208): keep every pair whose
id differs from `client_id`. -/
def BrokerState.unregister {κ : Type} (s : BrokerState κ) (client_id : Nat) : BrokerState κ :=
  { s with clients := s.clients.filter (fun p => p.1 != client_id) }

/-- `SseBroker.publish` (db.py lines 210-213): under the lock, `send` to
every currently registered client; the recipients are exactly the current
client list. -/
def BrokerState.publishRecipients {κ : Type} (s : BrokerState κ) : List (Nat × κ) :=
  s.clients

/-- One serialized broker operation (the single `_lock` linearizes the
three methods, so a concurrent history is a sequence of these). -/
inductive BrokerOp (κ : Type) where
  | register (c : κ)
  | unregister (client_id : Nat)
  | publish (event : String) (data : String)

/-- Instrumented broker history: the state, the ids returned by the
`register` calls in order, and for each `publish` the event name, data
and the recipients it delivered to. -/
structure BrokerTrace (κ : Type) where
  state : BrokerState κ
  returned : List Nat
  deliveries : List (String × String × List (Nat × κ))

/-- Effect of one operation on the instrumented history. -/
def brokerStep {κ : Type} (t : BrokerTrace κ) : BrokerOp κ → BrokerTrace κ
  | .register c =>
      let r := t.state.register c
      { state := r.2, returned := t.returned ++ [r.1], deliveries := t.deliveries }
  | .unregister i => { t with state := t.state.unregister i }
  | .publish e d =>
      { t with deliveries := t.deliveries ++ [(e, d, t.state.publishRecipients)] }

/-- Run a history of broker operations from the freshly constructed broker. -/
def brokerRun {κ : Type} (ops : List (BrokerOp κ)) : BrokerTrace κ :=
  ops.foldl brokerStep ⟨BrokerState.start, [], []⟩

/-- Whether the history contains an `unregister` for the given id. -/
def hasUnreg {κ : Type} (n : Nat) : List (BrokerOp κ) → Bool
  | [] => false
  | .unregister m :: rest => m == n || hasUnreg n rest
  | _ :: rest => hasUnreg n rest

/-- Independent specification of the surviving clients of a history: the
`i`-th `register` (counting from id `n`) survives exactly when no later
operation unregisters its id; survivors are listed in registration order. -/
def specClients {κ : Type} : List (BrokerOp κ) → Nat → List (Nat × κ)
  | [], _ => []
  | .register c :: rest, n =>
      (if hasUnreg n rest then [] else [(n, c)]) ++ specClients rest (n + 1)
  | .unregister _ :: rest, n => specClients rest n
  | .publish _ _ :: rest, n => specClients rest n

/-- Number of `register` operations in a history. -/
def regCount {κ : Type} : List (BrokerOp κ) → Nat
  | [] => 0
  | .register _ :: rest => regCount rest + 1
  | _ :: rest => regCount rest

end Db

/-! ## app/auth.py — JWT configuration, issue/verify, decorators, signup -/

namespace Auth

/-- The environment variables the auth module reads.  `token_exp_min` is
the already-parsed value of `TOKEN_EXP_MIN` (the module applies `int()`
to it; a malformed value would raise before any of the embedded logic
runs, so it is modelled as parsed). -/
structure Env where
  jwt_secret : Option String
  token_exp_min : Option Int
deriving DecidableEq, Repr

/-- `JwtConfig` (auth.py lines 26-42). -/
structure JwtConfig where
  secret : String
  algo : String
  exp_minutes : Int
deriving DecidableEq, Repr

/-- `JwtConfig.from_env`: requires a non-falsy `JWT_SECRET`
(`if not secret: raise RuntimeError`), defaults `TOKEN_EXP_MIN` to 60,
fixes the algorithm to HS256.  The `RuntimeError` is the `.error` case. -/
def JwtConfig.from_env (env : Env) : Except String JwtConfig :=
  match env.jwt_secret with
  | some s =>
      if s.isEmpty then .error "Missing JWT_SECRET environment variable."
      else .ok ⟨s, "HS256", env.token_exp_min.getD 60⟩
  | none => .error "Missing JWT_SECRET environment variable."

/-- The claims dictionary built by `_issue_token` (auth.py lines 51-57).
Times are seconds since the epoch (`utcnow`, `timedelta(minutes=...)`). -/
structure JwtPayload where
  sub : String
  role : String
  iat : Int
  nbf : Int
  exp : Int
deriving DecidableEq, Repr

/-- A signed JWT as produced by `jwt.encode(payload, secret, algorithm)`:
the payload together with the signing secret and algorithm, which stand
for the HMAC signature (two tokens verify against the same secret exactly
when they were signed with it). -/
structure Token where
  payload : JwtPayload
  secret : String
  algo : String
deriving DecidableEq, Repr

/-- Failure modes of `jwt.decode` distinguished by `_verify_token`. -/
inductive JwtError where
  | expiredSignature
  | invalidToken (msg : String)
deriving DecidableEq, Repr

/-- `jwt.decode(token, secret, algorithms=[...])` at time `now` (PyJWT,
zero leeway): signature/algorithm check first, then the `nbf` claim
(`ImmatureSignatureError`, a subclass of `InvalidTokenError`), then the
`exp` claim (`ExpiredSignatureError` when `exp <= now`). -/
def jwt_decode (tok : Token) (secret : String) (algos : List String) (now : Int) :
    Except JwtError JwtPayload :=
  if tok.secret = secret ∧ tok.algo ∈ algos then
    if now < tok.payload.nbf then
      .error (.invalidToken "The token is not yet valid (nbf)")
    else if tok.payload.exp ≤ now then
      .error .expiredSignature
    else .ok tok.payload
  else .error (.invalidToken "Signature verification failed")

/-- `_issue_token(sub, role)` (auth.py lines 45-62) at time `now`:
claims `sub`, `role`, `iat = nbf = now`, `exp = now + exp_minutes`
minutes, signed with the configured secret.  The `extra` parameter is
`None` at every call site and is omitted. -/
def _issue_token (env : Env) (now : Int) (sub role : String) : Except String Token :=
  match JwtConfig.from_env env with
  | .error e => .error e
  | .ok cfg =>
      .ok { payload := { sub := sub, role := role, iat := now, nbf := now,
                         exp := now + 60 * cfg.exp_minutes },
            secret := cfg.secret, algo := cfg.algo }

/-- `_verify_token(token)` (auth.py lines 65-79): returns
`(is_valid, payload, error_message)`.  A `RuntimeError` from
`JwtConfig.from_env` falls into the generic `except Exception` branch. -/
def _verify_token (env : Env) (now : Int) (tok : Token) :
    Bool × Option JwtPayload × Option String :=
  match JwtConfig.from_env env with
  | .error _ => (false, none, some "Unexpected token verification error.")
  | .ok cfg =>
      match jwt_decode tok cfg.secret [cfg.algo] now with
      | .ok payload => (true, some payload, none)
      | .error .expiredSignature => (false, none, some "Token has expired.")
      | .error (.invalidToken m) => (false, none, some ("Invalid token: " ++ m))

/-- The identity attached to `flask.g` by `jwt_required` (auth.py lines
94-97).  On the structured payloads of this model `payload.get("sub")`
and `payload.get("role")` are always present. -/
structure GContext where
  jwt : JwtPayload
  user_email : String
  user_role : String
deriving DecidableEq, Repr

/-- `jwt_required` (auth.py lines 82-99), abstracted over the verifier
the wrapper calls on the extracted bearer token (in the application it is
`_verify_token` on the serialized token string).  An `.error (status,
message)` is an early JSON response; `.ok` carries the wrapped handler's
result.  Since the header is guaranteed to start with `"Bearer "` (a
7-character prefix whose only space is the last character),
`auth_header.split(" ", 1)[1].strip()` is `(drop 7).trim`. -/
def jwt_required {ρ : Type} (verify : String → Bool × Option JwtPayload × Option String)
    (f : GContext → ρ) (authHeader : String) : Except (Nat × String) ρ :=
  if !(pyStartsWith authHeader "Bearer ") then
    .error (401, "Missing or malformed Authorization header.")
  else
    let token := pyStrip (pyDrop authHeader 7)
    match verify token with
    | (true, some payload, _) =>
        .ok (f { jwt := payload, user_email := payload.sub, user_role := payload.role })
    | (_, _, err) => .error (401, err.getD "Unauthorized")

/-- `roles_required(*roles)` (auth.py lines 102-114): the inner wrapper is
itself `jwt_required`-decorated, then rejects with 403 when the role
attached to `g` is not among `roles`. -/
def roles_required {ρ : Type} (roles : List String)
    (verify : String → Bool × Option JwtPayload × Option String)
    (f : GContext → ρ) (authHeader : String) : Except (Nat × String) ρ :=
  match jwt_required verify
      (fun g =>
        if roles.contains g.user_role then Except.ok (f g)
        else Except.error (403, "Forbidden: insufficient role."))
      authHeader with
  | .error e => .error e
  | .ok r => r

/-- `_validate_signup_payload` (auth.py lines 117-128), in source order:
email, password and role must be truthy, and the role must be one of the
three literals (a non-string role is never equal to them, hence also
rejected). -/
def _validate_signup_payload (data : JsonObj) : Option String :=
  if !(data.truthyAt "email") then some "Email is required."
  else if !(data.truthyAt "password") then some "Password is required."
  else if !(data.truthyAt "role") then some "Role is required."
  else
    match data.get? "role" with
    | some (.jstr r) =>
        if r = "student" ∨ r = "teacher" ∨ r = "admin" then none
        else some "Role must be one of: student, teacher, admin."
    | _ => some "Role must be one of: student, teacher, admin."

/-- One record of the in-memory `_USERS` store (auth.py lines 12-15). -/
structure UserRecord where
  password_hash : String
  role : String
  created_at : String
deriving DecidableEq, Repr

/-- `_USERS`: email-keyed dictionary, as an association list.  The signup
route only inserts fresh keys, so appending preserves dict semantics. -/
abbrev UserStore := List (String × UserRecord)

/-- Responses of the signup route. -/
inductive AuthResp where
  | message (s : String)
  | tokenResp (token : Token) (expires_in : Int) (role : String) (email : String)
deriving DecidableEq, Repr

/-- The `signup` route handler (auth.py lines 141-184).  `hashFn` stands
for werkzeug's salted `generate_password_hash`; `now` is the issue time
for the JWT and `nowIso` the `utcnow().isoformat()` string stored in the
record.  Mirrors the source's control flow: validation, then
`email.strip().lower()` (an `AttributeError` on a non-string email falls
into the generic `except` → 500 before any mutation), the duplicate
check, hashing (a non-string password likewise → 500 before mutation),
the store mutation, and only then `_issue_token` — whose `RuntimeError`
is answered with 500 *after* the store has already been extended. -/
def signup (env : Env) (hashFn : String → String) (now : Int) (nowIso : String)
    (data : JsonObj) (users : UserStore) : (Nat × AuthResp) × UserStore :=
  match _validate_signup_payload data with
  | some error => ((400, .message error), users)
  | none =>
    match data.get? "email", data.get? "role" with
    | some (.jstr emailRaw), some (.jstr role) =>
      let email := pyLower (pyStrip emailRaw)
      if users.any (fun p => p.1 == email) then
        ((409, .message "User already exists."), users)
      else
        match data.get? "password" with
        | some (.jstr password) =>
          let users' := users ++ [(email, ⟨hashFn password, role, nowIso⟩)]
          match _issue_token env now email role with
          | .ok token =>
            match JwtConfig.from_env env with
            | .ok cfg => ((201, .tokenResp token cfg.exp_minutes role email), users')
            | .error msg => ((500, .message msg), users')
          | .error msg => ((500, .message msg), users')
        | _ => ((500, .message "Internal server error"), users)
    | _, _ => ((500, .message "Internal server error"), users)

end Auth

/-! ## app/models.py — table state and the model functions

`execute_query` runs one fixed parameterized SQL statement per model
function against the schema of `ensure_schema` (db.py lines 136-187);
each model function below embeds the semantics of its own statement on an
explicit table state.  The broker publications of the model functions are
returned as an event list, pairing `sse_broker.publish`'s event name with
its data argument. -/

namespace Models

/-- A row of the `classes` table as selected by `RETURNING id, name,
teacher_id`. -/
structure ClassRow where
  id : Int
  name : String
  teacher_id : Int
deriving DecidableEq, Repr

/-- A row of the `attendance` table as selected by `RETURNING id,
class_id, user_id, status, ts`; `ts` is the insertion-time `NOW()`. -/
structure AttendanceRow where
  id : Int
  class_id : Int
  user_id : Int
  status : String
  ts : Int
deriving DecidableEq, Repr

/-- The data dictionaries passed to `sse_broker.publish`. -/
inductive SseEventData where
  | classRow (c : ClassRow)
  | membership (class_id user_id : Int)
  | attRow (r : AttendanceRow)
deriving DecidableEq, Repr

/-- One broker publication: event name and data. -/
abbrev SseEvent := String × SseEventData

/-- The PostgreSQL state touched by the model functions: the three
tables, the serial counters, and the clock used for `NOW()` defaults. -/
structure DbState where
  classes : List ClassRow
  classes_next_id : Int
  class_members : List (Int × Int)
  attendance : List AttendanceRow
  attendance_next_id : Int
  now : Int
  schema_ready : Bool
deriving DecidableEq, Repr

/-- `ensure_schema` (db.py lines 136-187): idempotent DDL; no row of any
table is touched. -/
def ensure_schema (db : DbState) : DbState := { db with schema_ready := true }

/-- `create_class(name, teacher_id)` (models.py lines 35-46):
`INSERT INTO classes ... RETURNING id, name, teacher_id`, publish
`class_created` with the returned row, return it.  Returns
(row, new state, publications). -/
def create_class (db : DbState) (name : String) (teacher_id : Int) :
    ClassRow × DbState × List SseEvent :=
  let row : ClassRow := ⟨db.classes_next_id, name, teacher_id⟩
  (row,
   { db with classes := db.classes ++ [row], classes_next_id := db.classes_next_id + 1 },
   [("class_created", .classRow row)])

/-- `add_student_to_class(class_id, user_id)` (models.py lines 60-69):
`INSERT ... ON CONFLICT DO NOTHING` on the membership pair, then publish
`class_member_added` unconditionally with `{class_id, user_id}`. -/
def add_student_to_class (db : DbState) (class_id user_id : Int) :
    (Int × Int) × DbState × List SseEvent :=
  let members :=
    if (class_id, user_id) ∈ db.class_members then db.class_members
    else db.class_members ++ [(class_id, user_id)]
  ((class_id, user_id),
   { db with class_members := members },
   [("class_member_added", .membership class_id user_id)])

/-- `mark_attendance(class_id, user_id, status)` (models.py lines
89-104): `INSERT INTO attendance ... RETURNING id, class_id, user_id,
status, ts`, publish `attendance_marked` with the returned row, return
it. -/
def mark_attendance (db : DbState) (class_id user_id : Int) (status : String) :
    AttendanceRow × DbState × List SseEvent :=
  let row : AttendanceRow := ⟨db.attendance_next_id, class_id, user_id, status, db.now⟩
  (row,
   { db with attendance := db.attendance ++ [row],
             attendance_next_id := db.attendance_next_id + 1 },
   [("attendance_marked", .attRow row)])

/-- `get_attendance_summary_for_user(user_id)` (models.py lines
125-137): `SELECT status, COUNT(*) FROM attendance WHERE user_id=%s
GROUP BY status`; the summary dict maps each status occurring among the
user's rows to its row count (group order: first occurrence). -/
def get_attendance_summary_for_user (db : DbState) (user_id : Int) :
    Int × List (String × Nat) :=
  let userRows := db.attendance.filter (fun r => r.user_id == user_id)
  let stats := userRows.map (fun r => r.status)
  (user_id, stats.dedup.map (fun s => (s, stats.count s)))

end Models

/-! ## app/routes/attendance.py — the attendance blueprint's POST handler -/

namespace Routes

open Models

/-- Marshmallow's `fields.Integer` coercion (non-strict): accepts
integers and integer-parsable strings; rejects null, booleans and
everything else. -/
def intCoercible : JsonVal → Option Int
  | .jint n => some n
  | .jstr s => pyToInt s
  | _ => none

/-- The declared fields of `MarkSchema` (attendance.py lines 10-13). -/
def markFields : List String := ["class_id", "user_id", "status"]

/-- `MarkSchema().validate(payload)` (attendance.py line 46): required
integer `class_id` and `user_id`, required string `status` constrained by
`validate.OneOf(["present", "absent", "late"])`; unknown fields are
rejected (marshmallow's default `unknown = RAISE`).  Returns the error
dictionary as a list of (field, message) pairs, empty exactly when the
payload is valid. -/
def MarkSchema_validate (payload : JsonObj) : List (String × String) :=
  (match payload.get? "class_id" with
   | none => [("class_id", "Missing data for required field.")]
   | some v =>
     match intCoercible v with
     | some _ => []
     | none => [("class_id", "Not a valid integer.")])
  ++ (match payload.get? "user_id" with
      | none => [("user_id", "Missing data for required field.")]
      | some v =>
        match intCoercible v with
        | some _ => []
        | none => [("user_id", "Not a valid integer.")])
  ++ (match payload.get? "status" with
      | none => [("status", "Missing data for required field.")]
      | some (.jstr s) =>
        if s ∈ (["present", "absent", "late"] : List String) then []
        else [("status", "Must be one of: present, absent, late.")]
      | some _ => [("status", "Not a valid string.")])
  ++ ((payload.map Prod.fst).filter (fun k => !(markFields.contains k))).map
        (fun k => (k, "Unknown field."))

/-- Response bodies of the attendance POST handler. -/
inductive AttResp where
  | errorsResp (errors : List (String × String))
  | eventResp (e : AttendanceRow)
  | message (s : String)
deriving DecidableEq, Repr

/-- `AttendanceCreateAndList.post` (attendance.py lines 40-52): validate
the JSON body against `MarkSchema`; on errors answer 400 with them; else
run `ensure_schema` and `mark_attendance` and answer 201 with the
inserted event.  The integer values reach the `INSERT` through psycopg2
parameters and the column types, hence the coercion at extraction.  The
500 arms are unreachable when validation has passed. -/
def attendance_post (payload : JsonObj) (db : DbState) :
    (Nat × AttResp) × DbState × List SseEvent :=
  let errors := MarkSchema_validate payload
  if errors.isEmpty then
    let db1 := ensure_schema db
    match payload.get? "class_id", payload.get? "user_id", payload.get? "status" with
    | some cv, some uv, some (.jstr st) =>
      match intCoercible cv, intCoercible uv with
      | some cid, some uid =>
        let r := mark_attendance db1 cid uid st
        ((201, .eventResp r.1), r.2.1, r.2.2)
      | _, _ => ((500, .message "Internal server error"), db1, [])
    | _, _, _ => ((500, .message "Internal server error"), db1, [])
  else ((400, .errorsResp errors), db, [])

end Routes

/-! ## app/__init__.py — the application factory -/

namespace Factory

/-- The module-level names defined by `app/db.py` (the revision present
in the source tree). -/
def db_module_defs : List String :=
  ["SingletonConnectionPool", "get_db_connection", "_execute", "execute_query",
   "execute_many", "ensure_schema", "SseBroker", "SseClient", "sse_broker"]

/-- Whether `from ..db import get_db_session` (routes/classes.py line 10)
resolves against `app/db.py`. -/
def classes_import_ok : Bool := db_module_defs.contains "get_db_session"

/-- Whether `from .db import init_engine, init_session_factory,
test_connection` (`__init__.py` line 117) resolves; its failure is caught
and only logged, so it does not affect the route table. -/
def db_helpers_import_ok : Bool :=
  db_module_defs.contains "init_engine" && db_module_defs.contains "init_session_factory"
    && db_module_defs.contains "test_connection"

/-- The view functions, as tags; `health` is the one shared body of
`root_health` and `healthz`. -/
inductive Handler where
  | health
  | openapi
  | docs
  | endpoint (name : String)
deriving DecidableEq, Repr

/-- Responses of the constant handlers: the health endpoints return
`jsonify({"message": "Healthy"}), 200` — status 200 with the message
string `Healthy`. -/
def Handler.respond : Handler → Option (Nat × String)
  | .health => some (200, "Healthy")
  | _ => none

/-- A URL-map entry. -/
structure Route where
  method : String
  path : String
  handler : Handler
deriving DecidableEq, Repr

/-- The four unconditional routes of `create_app` (`__init__.py` lines
52-109), registered before any fallible import or initialization. -/
def fallback_routes : List Route :=
  [⟨"GET", "/", .health⟩,
   ⟨"GET", "/healthz", .health⟩,
   ⟨"GET", "/openapi.json", .openapi⟩,
   ⟨"GET", "/docs", .docs⟩]

/-- Routes of the Health blueprint (routes/health.py). -/
def health_blp_routes : List Route :=
  [⟨"GET", "/", .endpoint "Health.HealthCheck.get"⟩]

/-- Routes of the Auth blueprint (app/auth.py lines 141-247). -/
def auth_blp_routes : List Route :=
  [⟨"POST", "/auth/signup", .endpoint "Auth.signup"⟩,
   ⟨"POST", "/auth/login", .endpoint "Auth.login"⟩,
   ⟨"GET", "/auth/me", .endpoint "Auth.me"⟩,
   ⟨"GET", "/auth/admin/ping", .endpoint "Auth.admin_ping"⟩]

/-- Routes of the Classes blueprint (routes/classes.py). -/
def classes_blp_routes : List Route :=
  [⟨"GET", "/classes", .endpoint "Classes.ClassesListResource.get"⟩,
   ⟨"POST", "/classes", .endpoint "Classes.ClassesListResource.post"⟩,
   ⟨"POST", "/classes/<int:class_id>/enroll", .endpoint "Classes.ClassEnrollmentResource.post"⟩,
   ⟨"POST", "/classes/<int:class_id>/sessions", .endpoint "Classes.ClassSessionsResource.post"⟩,
   ⟨"GET", "/classes/<int:class_id>/sessions", .endpoint "Classes.ClassSessionsResource.get"⟩]

/-- Routes of the Attendance blueprint (routes/attendance.py).  This
blueprint is defined in the source tree but `create_app` never imports
it. -/
def attendance_blp_routes : List Route :=
  [⟨"GET", "/attendance", .endpoint "Attendance.AttendanceCreateAndList.get"⟩,
   ⟨"POST", "/attendance", .endpoint "Attendance.AttendanceCreateAndList.post"⟩,
   ⟨"GET", "/attendance/summary", .endpoint "Attendance.AttendanceSummary.get"⟩,
   ⟨"GET", "/attendance/stream", .endpoint "Attendance.AttendanceSSE.get"⟩]

/-- The varying environment of one `create_app()` call: availability of
the optional external pieces.  Database configuration and connectivity
never affect the route table (`__init__.py` lines 115-139 only log). -/
structure World where
  smorest_available : Bool
  db_config_present : Bool
  db_connect_ok : Bool
deriving DecidableEq, Repr

/-- `create_app` (`__init__.py` lines 30-196) as a route-table builder:
the four fallback routes are always registered; the single `try` block at
lines 143-194 imports flask_smorest and then the Health, Auth and Classes
blueprints (lines 147-149) — `from .routes.classes import blp` raises
`ImportError` when `app.db` does not define `get_db_session`, which
aborts the whole block before any blueprint is registered.  Whether
registration then happens through `Api` or through the direct
`app.register_blueprint` fallback, the same routes are added.  The
Attendance blueprint does not appear in the import list. -/
def create_app (w : World) : List Route :=
  fallback_routes ++
    (if w.smorest_available && classes_import_ok then
      health_blp_routes ++ auth_blp_routes ++ classes_blp_routes
    else [])

/-- Werkzeug URL-map dispatch on our table: first matching rule wins. -/
def lookupRoute (routes : List Route) (method path : String) : Option Handler :=
  (routes.find? (fun r => r.method == method && r.path == path)).map Route.handler

end Factory

end AttendanceTracker

/-! # Theorems -/

namespace AttendanceTracker

namespace Db

/-- A `send` payload is never the keep-alive comment (it starts with
`event: `, so it is strictly longer than the 14-character comment). -/
theorem ssePayload_ne_keepAlive (e d : String) : ssePayload e d ≠ keepAliveChunk := by
  intro h
  have hlen := congrArg String.length h
  simp only [ssePayload, keepAliveChunk, String.length_append] at hlen
  have h1 : "event: ".length = 7 := rfl
  have h2 : "\ndata: ".length = 7 := rfl
  have h3 : "\n\n".length = 2 := rfl
  have h4 : (": keep-alive\n\n").length = 14 := rfl
  omega

/-- Generalized run lemma: from any state whose queue holds no keep-alive
chunk, the non-keep-alive chunks yielded so far followed by the pending
queue extend exactly by the payloads sent, in order. -/
theorem sseRunFrom_spec (ops : List SseOp) (s : SseClientState)
    (hq : ∀ c ∈ s.queue, (c != keepAliveChunk) = true) :
    ((ops.foldl sseStep s).yielded.filter (fun c => c != keepAliveChunk))
        ++ (ops.foldl sseStep s).queue
      = s.yielded.filter (fun c => c != keepAliveChunk) ++ s.queue ++ sentPayloads ops
    ∧ ∀ c ∈ (ops.foldl sseStep s).queue, (c != keepAliveChunk) = true := by
  induction ops generalizing s with
  | nil =>
      refine ⟨?_, hq⟩
      simp [sentPayloads]
  | cons op rest ih =>
      cases op with
      | send e d =>
          have hq' : ∀ c ∈ (sseSend s e d).queue, (c != keepAliveChunk) = true := by
            intro c hc
            simp only [sseSend, List.mem_append, List.mem_singleton] at hc
            rcases hc with hc | hc
            · exact hq c hc
            · subst hc
              simp [bne_iff_ne, ssePayload_ne_keepAlive]
          obtain ⟨h1, h2⟩ := ih (sseSend s e d) hq'
          constructor
          · simp only [List.foldl_cons, sseStep]
            rw [h1]
            simp [sseSend, sentPayloads]
          · exact h2
      | drain p =>
          have hq' : ∀ c ∈ (sseDrain s p).queue, (c != keepAliveChunk) = true := by
            intro c hc
            simp [sseDrain] at hc
          obtain ⟨h1, h2⟩ := ih (sseDrain s p) hq'
          constructor
          case right => exact h2
          simp only [List.foldl_cons, sseStep]
          rw [h1]
          simp only [sseDrain, List.filter_append, List.append_nil]
          have hka : (List.filter (fun c => c != keepAliveChunk)
              (if p then [keepAliveChunk] else [])) = [] := by
            cases p <;> simp
          have hqf : s.queue.filter (fun c => c != keepAliveChunk) = s.queue := by
            exact List.filter_eq_self.mpr hq
          rw [hka, hqf]
          simp [sentPayloads, List.append_assoc]

/-- **C2.** Per-subscriber insertion order: for every interleaving of
`SseBroker.publish`-driven `send`s and `stream`-loop iterations at one
client, the non-keep-alive chunks the stream generator has yielded,
followed by the still-pending queue, are exactly the payloads appended by
`SseClient.send`, in publication order: no reordering, no in-process loss,
with keep-alive comments interleaved only between (not among) batches of
payloads.  In particular, if `e1` is published before `e2` while the
client is registered, the payload of `e1` is yielded before the payload
of `e2`. -/
theorem c2_sse_insertion_order (ops : List SseOp) :
    ((sseRun ops).yielded.filter (fun c => c != keepAliveChunk)) ++ (sseRun ops).queue
      = sentPayloads ops := by
  have h := sseRunFrom_spec ops SseClientState.start
    (by intro c hc; simp [SseClientState.start] at hc)
  simpa [sseRun, SseClientState.start] using h.1

/-- Running a broker history from any starting trace adds `regCount` to
the id counter. -/
theorem brokerRunFrom_next_id {κ : Type} (ops : List (BrokerOp κ)) (t : BrokerTrace κ) :
    (ops.foldl brokerStep t).state.next_id = t.state.next_id + regCount ops := by
  induction ops generalizing t with
  | nil => simp [regCount]
  | cons op rest ih =>
      cases op with
      | register c =>
          have h := ih (brokerStep t (.register c))
          simp only [List.foldl_cons] at *
          rw [h]
          simp only [brokerStep, BrokerState.register, regCount]
          omega
      | unregister i =>
          have h := ih (brokerStep t (.unregister i))
          simp only [List.foldl_cons] at *
          rw [h]
          simp [brokerStep, BrokerState.unregister, regCount]
      | publish e d =>
          have h := ih (brokerStep t (.publish e d))
          simp only [List.foldl_cons] at *
          rw [h]
          simp [brokerStep, regCount]

/-- The ids handed out by `register` during a history are the consecutive
range starting at the initial `_next_id`. -/
theorem brokerRunFrom_returned {κ : Type} (ops : List (BrokerOp κ)) (t : BrokerTrace κ) :
    (ops.foldl brokerStep t).returned
      = t.returned ++ List.range' t.state.next_id (regCount ops) := by
  induction ops generalizing t with
  | nil => simp [regCount]
  | cons op rest ih =>
      cases op with
      | register c =>
          have h := ih (brokerStep t (.register c))
          simp only [List.foldl_cons] at *
          rw [h]
          simp only [brokerStep, BrokerState.register, regCount, List.range'_succ]
          simp
      | unregister i =>
          have h := ih (brokerStep t (.unregister i))
          simp only [List.foldl_cons] at *
          rw [h]
          simp [brokerStep, BrokerState.unregister, regCount]
      | publish e d =>
          have h := ih (brokerStep t (.publish e d))
          simp only [List.foldl_cons] at *
          rw [h]
          simp [brokerStep, regCount]

/-- Running a history from any starting trace: the surviving clients are
the starting ones not unregistered during the history, followed by the
history's own surviving registrations (`specClients`). -/
theorem brokerRunFrom_clients {κ : Type} (ops : List (BrokerOp κ)) (t : BrokerTrace κ) :
    (ops.foldl brokerStep t).state.clients
      = t.state.clients.filter (fun p => !hasUnreg p.1 ops)
          ++ specClients ops t.state.next_id := by
  induction ops generalizing t with
  | nil => simp [hasUnreg, specClients]
  | cons op rest ih =>
      cases op with
      | register c =>
          have h := ih (brokerStep t (.register c))
          simp only [List.foldl_cons] at *
          rw [h]
          simp only [brokerStep, BrokerState.register, specClients, hasUnreg,
            List.filter_append]
          rcases hu : hasUnreg (κ := κ) t.state.next_id rest with _ | _
          · simp [hu]
          · simp [hu]
      | unregister i =>
          have h := ih (brokerStep t (.unregister i))
          simp only [List.foldl_cons] at *
          rw [h]
          simp only [brokerStep, BrokerState.unregister, specClients, hasUnreg,
            List.filter_filter]
          congr 1
          apply List.filter_congr
          intro p _
          by_cases hpi : p.1 = i
          · subst hpi
            simp
          · have h1 : (p.1 == i) = false := by simpa using hpi
            have h2 : (i == p.1) = false := by simpa using Ne.symm hpi
            simp [bne, h1, h2]
      | publish e d =>
          have h := ih (brokerStep t (.publish e d))
          simp only [List.foldl_cons] at *
          rw [h]
          simp [brokerStep, specClients, hasUnreg]

/-- Every surviving registration of a history started at counter `n` has
id at least `n`. -/
theorem specClients_le {κ : Type} (ops : List (BrokerOp κ)) (n : Nat) :
    ∀ p ∈ specClients ops n, n ≤ p.1 := by
  induction ops generalizing n with
  | nil => simp [specClients]
  | cons op rest ih =>
      cases op with
      | register c =>
          intro p hp
          simp only [specClients, List.mem_append] at hp
          rcases hp with hp | hp
          · have hpe : p = (n, c) := by
              cases hu : hasUnreg (κ := κ) n rest <;> rw [hu] at hp <;> simpa using hp
            subst hpe
            exact Nat.le_refl n
          · have := ih (n + 1) p hp
            omega
      | unregister i =>
          intro p hp
          exact ih n p hp
      | publish e d =>
          intro p hp
          exact ih n p hp

/-- The surviving client ids of a history are strictly increasing (in
particular pairwise distinct). -/
theorem specClients_pairwise {κ : Type} (ops : List (BrokerOp κ)) (n : Nat) :
    ((specClients ops n).map Prod.fst).Pairwise (· < ·) := by
  induction ops generalizing n with
  | nil => simp [specClients]
  | cons op rest ih =>
      cases op with
      | register c =>
          cases hu : hasUnreg (κ := κ) n rest with
          | false =>
              simp only [specClients, hu]
              simp only [Bool.false_eq_true, if_false, List.singleton_append,
                List.map_cons]
              refine List.pairwise_cons.mpr ⟨?_, ih (n + 1)⟩
              intro b hb
              simp only [List.mem_map] at hb
              obtain ⟨p, hp, hb⟩ := hb
              have := specClients_le rest (n + 1) p hp
              omega
          | true =>
              simp only [specClients, hu]
              simp only [if_true, List.nil_append]
              exact ih (n + 1)
      | unregister i => exact ih n
      | publish e d => exact ih n

/-- **C7.** Broker bookkeeping invariant (with the single `_lock`
serializing `register`/`unregister`/`publish`, a concurrent history is a
sequence `ops` of operations): the ids returned by `register` are the
consecutive range from the initial counter 1, hence each is strictly
greater than all previously returned ids and all are distinct; the
registered clients are exactly the registrations not yet unregistered, in
order (`specClients`), with pairwise-distinct ids; `unregister m` removes
exactly the entries carrying id `m` (of which there is at most one) and
leaves every other client in place; and `publish` delivers to exactly the
clients registered and not yet unregistered at the time of the call. -/
theorem c7_broker_bookkeeping {κ : Type} (ops pre : List (BrokerOp κ))
    (m : Nat) (e d : String) :
    List.Pairwise (· < ·) (brokerRun ops).returned
  ∧ (brokerRun ops).returned = List.range' 1 (regCount ops)
  ∧ (brokerRun ops).state.clients = specClients ops 1
  ∧ ((brokerRun ops).state.clients.map Prod.fst).Nodup
  ∧ (brokerRun (pre ++ [BrokerOp.unregister m])).state.clients
      = (brokerRun pre).state.clients.filter (fun p => p.1 != m)
  ∧ (brokerRun (pre ++ [BrokerOp.publish e d])).deliveries
      = (brokerRun pre).deliveries ++ [(e, d, (brokerRun pre).state.clients)] := by
  have hret : (brokerRun ops).returned = List.range' 1 (regCount ops) := by
    have := brokerRunFrom_returned ops ⟨BrokerState.start, [], []⟩
    simpa [brokerRun, BrokerState.start] using this
  have hcl : (brokerRun ops).state.clients = specClients ops 1 := by
    have := brokerRunFrom_clients ops ⟨BrokerState.start, [], []⟩
    simpa [brokerRun, BrokerState.start] using this
  refine ⟨?_, hret, hcl, ?_, ?_, ?_⟩
  · rw [hret]
    exact List.pairwise_lt_range' 1 (regCount ops)
  · rw [hcl]
    exact (specClients_pairwise ops 1).imp Nat.ne_of_lt
  · simp [brokerRun, List.foldl_append, brokerStep, BrokerState.unregister]
  · simp [brokerRun, List.foldl_append, brokerStep, BrokerState.publishRecipients]

end Db

namespace Auth

/-- `_verify_token` accepts a token signed with the configured secret
whose `nbf` has passed and whose `exp` has not. -/
theorem verify_token_ok (secret : String) (expMin : Option Int) (p : JwtPayload) (t : Int)
    (hie : secret.isEmpty = false) (hnbf : p.nbf ≤ t) (hexp : t < p.exp) :
    _verify_token ⟨some secret, expMin⟩ t ⟨p, secret, "HS256"⟩ = (true, some p, none) := by
  simp only [_verify_token, JwtConfig.from_env, hie, Bool.false_eq_true, if_false, jwt_decode]
  rw [if_pos (by simp), if_neg (by omega), if_neg (by omega)]

/-- `_verify_token` reports expiry once `exp ≤ now`. -/
theorem verify_token_expired (secret : String) (expMin : Option Int) (p : JwtPayload) (t : Int)
    (hie : secret.isEmpty = false) (hnbf : p.nbf ≤ t) (hexp : p.exp ≤ t) :
    _verify_token ⟨some secret, expMin⟩ t ⟨p, secret, "HS256"⟩
      = (false, none, some "Token has expired.") := by
  simp only [_verify_token, JwtConfig.from_env, hie, Bool.false_eq_true, if_false, jwt_decode]
  rw [if_pos (by simp), if_neg (by omega), if_pos (by omega)]

/-- `_verify_token` rejects a token signed with a different secret. -/
theorem verify_token_wrong_secret (secret other : String) (expMin : Option Int)
    (p : JwtPayload) (t : Int) (hie : other.isEmpty = false) (hne : secret ≠ other) :
    _verify_token ⟨some other, expMin⟩ t ⟨p, secret, "HS256"⟩
      = (false, none, some "Invalid token: Signature verification failed") := by
  simp only [_verify_token, JwtConfig.from_env, hie, Bool.false_eq_true, if_false, jwt_decode]
  rw [if_neg (by intro hc; exact hne hc.1)]
  rfl

/-- **C3.** JWT issue/verify round-trip: with `JWT_SECRET` set (to a
non-empty secret) and a positive effective `TOKEN_EXP_MIN`, verifying
(before expiry, under the same environment) the token produced by
`_issue_token sub role` yields `(True, payload, None)` with
`payload.sub = sub` and `payload.role = role`; once the expiry time is
reached verification yields `(False, None, "Token has expired.")`; and
under an environment with a different secret it yields
`(False, None, error)`. -/
theorem c3_jwt_round_trip (secret other : String) (expMin : Option Int)
    (sub role : String) (t0 t : Int) (tok : Token)
    (hs : secret ≠ "") (hm : 0 < expMin.getD 60)
    (hissue : _issue_token ⟨some secret, expMin⟩ t0 sub role = .ok tok) :
    (t0 ≤ t → t < t0 + 60 * expMin.getD 60 →
       _verify_token ⟨some secret, expMin⟩ t tok = (true, some tok.payload, none)
         ∧ tok.payload.sub = sub ∧ tok.payload.role = role)
  ∧ (t0 + 60 * expMin.getD 60 ≤ t →
       _verify_token ⟨some secret, expMin⟩ t tok
         = (false, none, some "Token has expired."))
  ∧ (other ≠ secret → other ≠ "" →
       _verify_token ⟨some other, expMin⟩ t tok
         = (false, none, some "Invalid token: Signature verification failed")) := by
  have hie : secret.isEmpty = false := by
    rcases h : secret.isEmpty with _ | _
    · rfl
    · exact absurd ((String.isEmpty_iff _).mp h) hs
  have htok : tok = ⟨⟨sub, role, t0, t0, t0 + 60 * expMin.getD 60⟩, secret, "HS256"⟩ := by
    simp only [_issue_token, JwtConfig.from_env, hie, Bool.false_eq_true, if_false,
      Except.ok.injEq] at hissue
    exact hissue.symm
  subst htok
  refine ⟨?_, ?_, ?_⟩
  · intro h1 h2
    exact ⟨verify_token_ok secret expMin _ t hie (by simpa using h1) (by simpa using h2),
      rfl, rfl⟩
  · intro h1
    exact verify_token_expired secret expMin _ t hie (by simp; omega) (by simpa using h1)
  · intro hne hne0
    have hoe : other.isEmpty = false := by
      rcases h : other.isEmpty with _ | _
      · rfl
      · exact absurd ((String.isEmpty_iff _).mp h) hne0
    exact verify_token_wrong_secret secret other expMin _ t hoe (Ne.symm hne)

/-- Concrete round-trip instance of the C3 theorem: secret `"k"`, one
minute of validity, issue at 0, verify at 30 and 60, wrong secret
`"w"`. -/
theorem c3_jwt_round_trip_witness :
    _verify_token ⟨some "k", some 1⟩ 30 ⟨⟨"a@b", "student", 0, 0, 60⟩, "k", "HS256"⟩
      = (true, some ⟨"a@b", "student", 0, 0, 60⟩, none)
  ∧ _verify_token ⟨some "k", some 1⟩ 60 ⟨⟨"a@b", "student", 0, 0, 60⟩, "k", "HS256"⟩
      = (false, none, some "Token has expired.")
  ∧ _verify_token ⟨some "w", some 1⟩ 30 ⟨⟨"a@b", "student", 0, 0, 60⟩, "k", "HS256"⟩
      = (false, none, some "Invalid token: Signature verification failed") := by
  have h30 := c3_jwt_round_trip "k" "w" (some 1) "a@b" "student" 0 30
    ⟨⟨"a@b", "student", 0, 0, 60⟩, "k", "HS256"⟩ (by decide) (by decide)
    (by simp [_issue_token, JwtConfig.from_env, show "k".isEmpty = false from by decide])
  have h60 := c3_jwt_round_trip "k" "w" (some 1) "a@b" "student" 0 60
    ⟨⟨"a@b", "student", 0, 0, 60⟩, "k", "HS256"⟩ (by decide) (by decide)
    (by simp [_issue_token, JwtConfig.from_env, show "k".isEmpty = false from by decide])
  exact ⟨(h30.1 (by decide) (by decide)).1, h60.2.1 (by decide),
    h30.2.2 (by decide) (by decide)⟩

/-- **C4.** Auth-decorator checks: a request whose Authorization header
is absent (modelled as the empty string, which does not start with
`"Bearer "`) or malformed, or whose token fails verification, is answered
401 by `jwt_required` — uniformly in the wrapped handler `f`, which is
therefore never executed; `roles_required` behaves identically on those
requests, answers 403 (again uniformly in `f`) when the verified role is
not among the allowed roles, and otherwise runs the handler on the
context `g` carrying the token's `sub` and `role` claims. -/
theorem c4_auth_decorator_checks {ρ : Type}
    (verify : String → Bool × Option JwtPayload × Option String)
    (f : GContext → ρ) (hdr : String) (roles : List String) (p : JwtPayload)
    (ok : Bool) (pay : Option JwtPayload) (err : Option String) :
    (pyStartsWith hdr "Bearer " = false →
       jwt_required verify f hdr = .error (401, "Missing or malformed Authorization header.")
       ∧ roles_required roles verify f hdr
           = .error (401, "Missing or malformed Authorization header."))
  ∧ (pyStartsWith hdr "Bearer " = true →
       verify (pyStrip (pyDrop hdr 7)) = (ok, pay, err) → (ok = false ∨ pay = none) →
       jwt_required verify f hdr = .error (401, err.getD "Unauthorized")
       ∧ roles_required roles verify f hdr = .error (401, err.getD "Unauthorized"))
  ∧ (pyStartsWith hdr "Bearer " = true →
       verify (pyStrip (pyDrop hdr 7)) = (true, some p, err) →
       jwt_required verify f hdr = .ok (f ⟨p, p.sub, p.role⟩)
       ∧ (p.role ∉ roles →
            roles_required roles verify f hdr = .error (403, "Forbidden: insufficient role."))
       ∧ (p.role ∈ roles →
            roles_required roles verify f hdr = .ok (f ⟨p, p.sub, p.role⟩))) := by
  refine ⟨?_, ?_, ?_⟩
  · intro h
    constructor
    · simp [jwt_required, h]
    · simp [roles_required, jwt_required, h]
  · intro h hv hcase
    have hj : ∀ {σ : Type} (g : GContext → σ),
        jwt_required verify g hdr = .error (401, err.getD "Unauthorized") := by
      intro σ g
      simp only [jwt_required, h, Bool.not_true, Bool.false_eq_true, if_false, hv]
      rcases hcase with hc | hc
      · subst hc
        rfl
      · subst hc
        cases ok <;> rfl
    exact ⟨hj f, by simp only [roles_required, hj]⟩
  · intro h hv
    have hj : ∀ {σ : Type} (g : GContext → σ),
        jwt_required verify g hdr = .ok (g ⟨p, p.sub, p.role⟩) := by
      intro σ g
      simp only [jwt_required, h, Bool.not_true, Bool.false_eq_true, if_false, hv]
    refine ⟨hj f, ?_, ?_⟩
    · intro hrole
      have hcon : roles.contains p.role = false := by
        rcases hc : roles.contains p.role with _ | _
        · rfl
        · exact absurd (by simpa using hc) hrole
      simp only [roles_required, hj, hcon, Bool.false_eq_true, if_false]
    · intro hrole
      have hcon : roles.contains p.role = true := by simpa using hrole
      simp only [roles_required, hj, hcon, if_true]

/-- Concrete instance of the C4 theorem: a missing header, a rejected
token, a wrong role and an accepted request. -/
theorem c4_auth_decorator_checks_witness :
    jwt_required (fun s => if s == "good" then (true, some ⟨"u@x", "student", 0, 0, 60⟩, none)
        else (false, none, some "Invalid token: bad"))
      (fun g => g.user_email) ""
      = .error (401, "Missing or malformed Authorization header.")
  ∧ jwt_required (fun s => if s == "good" then (true, some ⟨"u@x", "student", 0, 0, 60⟩, none)
        else (false, none, some "Invalid token: bad"))
      (fun g => g.user_email) "Bearer bad"
      = .error (401, "Invalid token: bad")
  ∧ roles_required ["teacher"] (fun s => if s == "good" then
        (true, some ⟨"u@x", "student", 0, 0, 60⟩, none)
        else (false, none, some "Invalid token: bad"))
      (fun g => g.user_email) "Bearer good"
      = .error (403, "Forbidden: insufficient role.")
  ∧ roles_required ["student"] (fun s => if s == "good" then
        (true, some ⟨"u@x", "student", 0, 0, 60⟩, none)
        else (false, none, some "Invalid token: bad"))
      (fun g => g.user_email) "Bearer good"
      = .ok "u@x" := by
  have h1 := (c4_auth_decorator_checks
    (fun s => if s == "good" then (true, some ⟨"u@x", "student", 0, 0, 60⟩, none)
      else (false, none, some "Invalid token: bad"))
    (fun g => g.user_email) "" ["teacher"] ⟨"u@x", "student", 0, 0, 60⟩
    false none none).1 (by decide)
  have h2 := (c4_auth_decorator_checks
    (fun s => if s == "good" then (true, some ⟨"u@x", "student", 0, 0, 60⟩, none)
      else (false, none, some "Invalid token: bad"))
    (fun g => g.user_email) "Bearer bad" ["teacher"] ⟨"u@x", "student", 0, 0, 60⟩
    false none (some "Invalid token: bad")).2.1 (by decide) (by decide) (Or.inl rfl)
  have h3 := (c4_auth_decorator_checks
    (fun s => if s == "good" then (true, some ⟨"u@x", "student", 0, 0, 60⟩, none)
      else (false, none, some "Invalid token: bad"))
    (fun g => g.user_email) "Bearer good" ["teacher"] ⟨"u@x", "student", 0, 0, 60⟩
    true (some ⟨"u@x", "student", 0, 0, 60⟩) none).2.2 (by decide) (by decide)
  have h4 := (c4_auth_decorator_checks
    (fun s => if s == "good" then (true, some ⟨"u@x", "student", 0, 0, 60⟩, none)
      else (false, none, some "Invalid token: bad"))
    (fun g => g.user_email) "Bearer good" ["student"] ⟨"u@x", "student", 0, 0, 60⟩
    true (some ⟨"u@x", "student", 0, 0, 60⟩) none).2.2 (by decide) (by decide)
  exact ⟨h1.1, h2.1, h3.2.1 (by decide), h4.2.2 (by decide)⟩

/-- **C6 (counterexample).** The claim asserts that a valid signup with a
fresh email always adds exactly one entry *and* answers 201 with a token.
With `JWT_SECRET` unset, a valid payload with a fresh email is answered
500 — yet the store has already been extended (the mutation at auth.py
line 166 precedes the `_issue_token` call at line 172, and the
`except RuntimeError` branch does not roll it back). -/
theorem c6_signup_counterexample :
    (signup ⟨none, none⟩ (fun s => s) 0 "t0"
        [("email", .jstr "a@b.c"), ("password", .jstr "pw"), ("role", .jstr "student")]
        []).1.1 = 500
  ∧ (signup ⟨none, none⟩ (fun s => s) 0 "t0"
        [("email", .jstr "a@b.c"), ("password", .jstr "pw"), ("role", .jstr "student")]
        []).2 = [("a@b.c", ⟨"pw", "student", "t0"⟩)] := by
  constructor <;> decide

/-- **C6 (amended).** Signup behaviour: a payload failing validation is
answered 400 with the store unchanged; a duplicate (lower-cased,
stripped) email is answered 409 with message `User already exists.` and
the store unchanged; otherwise (string-valued email and password fields)
exactly one entry keyed by the normalized email is appended and, when the
environment provides a (non-empty) `JWT_SECRET`, the response is 201
carrying a token for that email and role — but when `JWT_SECRET` is
missing the entry is still appended and the response is 500. -/
theorem c6_signup_amended (env : Env) (hashFn : String → String) (now : Int)
    (nowIso : String) (data : JsonObj) (users : UserStore)
    (emailRaw password role secret : String) :
    (∀ err, _validate_signup_payload data = some err →
       signup env hashFn now nowIso data users = ((400, .message err), users))
  ∧ (_validate_signup_payload data = none →
     data.get? "email" = some (.jstr emailRaw) →
     data.get? "role" = some (.jstr role) →
     users.any (fun p => p.1 == pyLower (pyStrip emailRaw)) = true →
       signup env hashFn now nowIso data users
         = ((409, .message "User already exists."), users))
  ∧ (_validate_signup_payload data = none →
     data.get? "email" = some (.jstr emailRaw) →
     data.get? "role" = some (.jstr role) →
     data.get? "password" = some (.jstr password) →
     users.any (fun p => p.1 == pyLower (pyStrip emailRaw)) = false →
     env.jwt_secret = some secret → secret.isEmpty = false →
       signup env hashFn now nowIso data users
         = ((201, .tokenResp
              ⟨⟨pyLower (pyStrip emailRaw), role, now, now,
                 now + 60 * env.token_exp_min.getD 60⟩, secret, "HS256"⟩
              (env.token_exp_min.getD 60) role (pyLower (pyStrip emailRaw))),
            users ++ [(pyLower (pyStrip emailRaw), ⟨hashFn password, role, nowIso⟩)]))
  ∧ (_validate_signup_payload data = none →
     data.get? "email" = some (.jstr emailRaw) →
     data.get? "role" = some (.jstr role) →
     data.get? "password" = some (.jstr password) →
     users.any (fun p => p.1 == pyLower (pyStrip emailRaw)) = false →
     env.jwt_secret = none →
       signup env hashFn now nowIso data users
         = ((500, .message "Missing JWT_SECRET environment variable."),
            users ++ [(pyLower (pyStrip emailRaw), ⟨hashFn password, role, nowIso⟩)])) := by
  refine ⟨?_, ?_, ?_, ?_⟩
  · intro err hval
    simp only [signup, hval]
  · intro hval hemail hrole hmem
    simp only [signup, hval, hemail, hrole, hmem, if_true]
  · intro hval hemail hrole hpw hmem hsec hie
    have hcfg : JwtConfig.from_env env = .ok ⟨secret, "HS256", env.token_exp_min.getD 60⟩ := by
      simp only [JwtConfig.from_env, hsec, hie, Bool.false_eq_true, if_false]
    simp only [signup, hval, hemail, hrole, hpw, hmem, Bool.false_eq_true, if_false,
      _issue_token, hcfg]
  · intro hval hemail hrole hpw hmem hsec
    have hcfg : JwtConfig.from_env env = .error "Missing JWT_SECRET environment variable." := by
      simp only [JwtConfig.from_env, hsec]
    simp only [signup, hval, hemail, hrole, hpw, hmem, Bool.false_eq_true, if_false,
      _issue_token, hcfg]

/-- Concrete instances of the amended C6 theorem: a payload with no
email is answered 400 with the store unchanged; with `JWT_SECRET = "k"`,
a valid signup for a fresh email appends one entry and is answered 201
with its token. -/
theorem c6_signup_amended_witness :
    signup ⟨some "k", some 1⟩ (fun s => s) 0 "t0"
        [("password", .jstr "pw"), ("role", .jstr "student")] []
      = ((400, .message "Email is required."), [])
  ∧ signup ⟨some "k", some 1⟩ (fun s => s) 0 "t0"
        [("email", .jstr "a@b.c"), ("password", .jstr "pw"), ("role", .jstr "student")] []
      = ((201, .tokenResp ⟨⟨"a@b.c", "student", 0, 0, 60⟩, "k", "HS256"⟩ 1 "student" "a@b.c"),
         [("a@b.c", ⟨"pw", "student", "t0"⟩)]) := by
  have h400 := (c6_signup_amended ⟨some "k", some 1⟩ (fun s => s) 0 "t0"
    [("password", .jstr "pw"), ("role", .jstr "student")] [] "a@b.c" "pw" "student" "k").1
    "Email is required." (by decide)
  have h201 := (c6_signup_amended ⟨some "k", some 1⟩ (fun s => s) 0 "t0"
    [("email", .jstr "a@b.c"), ("password", .jstr "pw"), ("role", .jstr "student")] []
    "a@b.c" "pw" "student" "k").2.2.1
    (by decide) (by decide) (by decide) (by decide) (by decide) rfl (by decide)
  refine ⟨h400, ?_⟩
  rw [h201]
  decide

end Auth

namespace Models

/-- **C8.** Exactly three event types are published through the broker:
the only `sse_broker.publish` call sites in the code base are in
`create_class`, `add_student_to_class` and `mark_attendance` (models.py
lines 44, 68 and 102), which publish, for every input, exactly
`class_created`, `class_member_added` and `attendance_marked`
respectively — no other event name is ever published. -/
theorem c8_three_event_types (db : DbState) (name : String) (tid cid uid : Int)
    (status : String) :
    ((create_class db name tid).2.2.map Prod.fst = ["class_created"])
  ∧ ((add_student_to_class db cid uid).2.2.map Prod.fst = ["class_member_added"])
  ∧ ((mark_attendance db cid uid status).2.2.map Prod.fst = ["attendance_marked"])
  ∧ ((((create_class db name tid).2.2 ++ (add_student_to_class db cid uid).2.2
        ++ (mark_attendance db cid uid status).2.2).map Prod.fst).all
      (fun n => ["class_created", "class_member_added", "attendance_marked"].contains n)
      = true) := by
  refine ⟨rfl, rfl, rfl, ?_⟩
  simp [create_class, add_student_to_class, mark_attendance]

/-- Projections of a pairing map. -/
theorem map_fst_pair {α β : Type} (f : α → β) (l : List α) :
    (l.map (fun a => (a, f a))).map Prod.fst = l := by
  induction l with
  | nil => rfl
  | cons a l ih => simp [ih]

/-- Projections of a pairing map, second component. -/
theorem map_snd_pair {α β : Type} (f : α → β) (l : List α) :
    (l.map (fun a => (a, f a))).map Prod.snd = l.map f := by
  induction l with
  | nil => rfl
  | cons a l ih => simp [ih]

/-- **C10.** `get_attendance_summary_for_user` returns the queried
`user_id` together with a summary mapping each status occurring among
that user's attendance rows — and no other status — to the number of the
user's rows with that status; the summary's keys are distinct and its
values sum to the user's total number of attendance rows. -/
theorem c10_attendance_summary (db : DbState) (uid : Int) (s : String) (n : Nat) :
    (get_attendance_summary_for_user db uid).1 = uid
  ∧ ((get_attendance_summary_for_user db uid).2.map Prod.fst).Nodup
  ∧ ((s, n) ∈ (get_attendance_summary_for_user db uid).2 →
       n = (db.attendance.filter (fun r => r.user_id == uid && r.status == s)).length
       ∧ 0 < n)
  ∧ (s ∈ (get_attendance_summary_for_user db uid).2.map Prod.fst ↔
       (db.attendance.filter (fun r => r.user_id == uid && r.status == s)).length ≠ 0)
  ∧ (((get_attendance_summary_for_user db uid).2.map Prod.snd).sum
       = (db.attendance.filter (fun r => r.user_id == uid)).length) := by
  have hcount : ∀ t : String,
      ((db.attendance.filter (fun r => r.user_id == uid)).map
          (fun r => r.status)).count t
        = (db.attendance.filter (fun r => r.user_id == uid && r.status == t)).length := by
    intro t
    rw [List.count_eq_countP, List.countP_map, List.countP_eq_length_filter,
      List.filter_filter]
    congr 1
    apply List.filter_congr
    intro r _
    simp [Function.comp, Bool.and_comm]
  have hkeys : (get_attendance_summary_for_user db uid).2.map Prod.fst
      = ((db.attendance.filter (fun r => r.user_id == uid)).map
          (fun r => r.status)).dedup := by
    simp only [get_attendance_summary_for_user]
    exact map_fst_pair _ _
  refine ⟨rfl, ?_, ?_, ?_, ?_⟩
  · rw [hkeys]
    exact List.nodup_dedup _
  · intro hmem
    simp only [get_attendance_summary_for_user, List.mem_map] at hmem
    obtain ⟨a, ha, heq⟩ := hmem
    have h1 : a = s := congrArg Prod.fst heq
    have h2 : ((db.attendance.filter (fun r => r.user_id == uid)).map
        (fun r => r.status)).count a = n := congrArg Prod.snd heq
    subst h1
    constructor
    · rw [← h2]
      exact hcount _
    · rw [← h2]
      exact List.count_pos_iff.mpr (List.mem_dedup.mp ha)
  · rw [hkeys, List.mem_dedup, ← hcount s]
    rw [← List.count_pos_iff (l := (db.attendance.filter
      (fun r => r.user_id == uid)).map (fun r => r.status)) (a := s)]
    omega
  · have hsnd : (get_attendance_summary_for_user db uid).2.map Prod.snd
        = ((db.attendance.filter (fun r => r.user_id == uid)).map
            (fun r => r.status)).dedup.map
          (fun t => ((db.attendance.filter (fun r => r.user_id == uid)).map
            (fun r => r.status)).count t) := by
      simp only [get_attendance_summary_for_user]
      exact map_snd_pair _ _
    rw [hsnd, List.sum_map_count_dedup_eq_length, List.length_map]

/-- Concrete instance of the C10 theorem: user 7 has two `present` rows
among three attendance rows. -/
theorem c10_attendance_summary_witness :
    2 = (([⟨1, 1, 7, "present", 5⟩, ⟨2, 1, 7, "late", 6⟩, ⟨3, 2, 7, "present", 7⟩,
           ⟨4, 1, 9, "absent", 8⟩] : List AttendanceRow).filter
          (fun r => r.user_id == 7 && r.status == "present")).length ∧ 0 < 2 := by
  have h := (c10_attendance_summary
    ⟨[], 0, [], [⟨1, 1, 7, "present", 5⟩, ⟨2, 1, 7, "late", 6⟩, ⟨3, 2, 7, "present", 7⟩,
        ⟨4, 1, 9, "absent", 8⟩], 5, 9, true⟩ 7 "present" 2).2.2.1 (by decide)
  exact h

end Models

namespace Routes

open Models

/-- **C5.** `POST /attendance` validates its body against `MarkSchema`
and answers 400 carrying the validation errors whenever `class_id` or
`user_id` is missing or the status lies outside
`{present, absent, late}` (leaving the database untouched and publishing
nothing); on a valid body it answers 201 with the inserted event
`(id, class_id, user_id, status, ts)`, the database extended by exactly
that row by the `INSERT ... RETURNING` statement, and the corresponding
`attendance_marked` publication. -/
theorem c5_attendance_post (payload : JsonObj) (db : DbState)
    (cv uv : JsonVal) (cid uid : Int) (st : String) :
    (payload.get? "class_id" = none →
       attendance_post payload db
         = ((400, .errorsResp (MarkSchema_validate payload)), db, [])
       ∧ MarkSchema_validate payload ≠ [])
  ∧ (payload.get? "user_id" = none →
       attendance_post payload db
         = ((400, .errorsResp (MarkSchema_validate payload)), db, [])
       ∧ MarkSchema_validate payload ≠ [])
  ∧ (payload.get? "status" = some (.jstr st) →
     st ∉ (["present", "absent", "late"] : List String) →
       attendance_post payload db
         = ((400, .errorsResp (MarkSchema_validate payload)), db, [])
       ∧ MarkSchema_validate payload ≠ [])
  ∧ (MarkSchema_validate payload = [] →
     payload.get? "class_id" = some cv → intCoercible cv = some cid →
     payload.get? "user_id" = some uv → intCoercible uv = some uid →
     payload.get? "status" = some (.jstr st) →
       attendance_post payload db
         = ((201, .eventResp ⟨db.attendance_next_id, cid, uid, st, db.now⟩),
            { db with schema_ready := true,
                      attendance := db.attendance
                        ++ [⟨db.attendance_next_id, cid, uid, st, db.now⟩],
                      attendance_next_id := db.attendance_next_id + 1 },
            [("attendance_marked", .attRow ⟨db.attendance_next_id, cid, uid, st, db.now⟩)])) := by
  have h400 : MarkSchema_validate payload ≠ [] →
      attendance_post payload db
        = ((400, .errorsResp (MarkSchema_validate payload)), db, []) := by
    intro hne
    have hie : (MarkSchema_validate payload).isEmpty = false := by
      rcases h : (MarkSchema_validate payload).isEmpty with _ | _
      · rfl
      · exact absurd (List.isEmpty_iff.mp h) hne
    simp only [attendance_post, hie, Bool.false_eq_true, if_false]
  refine ⟨?_, ?_, ?_, ?_⟩
  · intro hcid
    have hne : MarkSchema_validate payload ≠ [] := by
      simp only [MarkSchema_validate, hcid]
      simp
    exact ⟨h400 hne, hne⟩
  · intro huid
    have hmem : ("user_id", "Missing data for required field.") ∈ MarkSchema_validate payload := by
      simp only [MarkSchema_validate, huid, List.mem_append]
      left; left
      simp
    have hne : MarkSchema_validate payload ≠ [] := List.ne_nil_of_mem hmem
    exact ⟨h400 hne, hne⟩
  · intro hst hout
    have hmem : ("status", "Must be one of: present, absent, late.")
        ∈ MarkSchema_validate payload := by
      simp only [MarkSchema_validate, hst, List.mem_append]
      left; right
      simp [hout]
    have hne : MarkSchema_validate payload ≠ [] := List.ne_nil_of_mem hmem
    exact ⟨h400 hne, hne⟩
  · intro hval hcid hc huid hu hst
    have hie : (MarkSchema_validate payload).isEmpty = true := by
      rw [hval]
      rfl
    simp only [attendance_post, hie, if_true, hcid, huid, hst, hc, hu,
      ensure_schema, mark_attendance]

/-- Concrete instances of the C5 theorem: a body missing `class_id` is
answered 400 with a non-empty error dictionary; a valid body is answered
201 with the inserted event and the `attendance_marked` publication. -/
theorem c5_attendance_post_witness :
    (attendance_post [("user_id", .jint 2), ("status", .jstr "present")]
        ⟨[], 0, [], [], 1, 9, false⟩
      = ((400, .errorsResp (MarkSchema_validate
            [("user_id", .jint 2), ("status", .jstr "present")])),
         ⟨[], 0, [], [], 1, 9, false⟩, []))
  ∧ (attendance_post [("class_id", .jint 1), ("user_id", .jint 2), ("status", .jstr "present")]
        ⟨[], 0, [], [], 1, 9, false⟩
      = ((201, .eventResp ⟨1, 1, 2, "present", 9⟩),
         ⟨[], 0, [], [⟨1, 1, 2, "present", 9⟩], 2, 9, true⟩,
         [("attendance_marked", .attRow ⟨1, 1, 2, "present", 9⟩)])) := by
  have h1 := (c5_attendance_post [("user_id", .jint 2), ("status", .jstr "present")]
    ⟨[], 0, [], [], 1, 9, false⟩ (.jint 1) (.jint 2) 1 2 "present").1 (by decide)
  have h2 := (c5_attendance_post
    [("class_id", .jint 1), ("user_id", .jint 2), ("status", .jstr "present")]
    ⟨[], 0, [], [], 1, 9, false⟩ (.jint 1) (.jint 2) 1 2 "present").2.2.2
    (by decide) (by decide) (by decide) (by decide) (by decide) (by decide)
  exact ⟨h1.1, h2⟩

end Routes

namespace Factory

/-- **C9.** `GET /` and `GET /healthz` answer 200 with body
`{"message": "Healthy"}` in every environment: whatever the
configuration, database availability or blueprint/extension import
outcome, dispatch of both paths hits the unconditional health handler
registered before any fallible initialization, and that handler's
response is 200 `Healthy`. -/
theorem c9_health_endpoints (w : World) :
    lookupRoute (create_app w) "GET" "/" = some Handler.health
  ∧ lookupRoute (create_app w) "GET" "/healthz" = some Handler.health
  ∧ Handler.health.respond = some (200, "Healthy") := by
  have hok : classes_import_ok = false := by decide
  have hca : create_app w = fallback_routes := by
    simp [create_app, hok]
  rw [hca]
  refine ⟨?_, ?_, rfl⟩ <;> decide

/-- **C1.** The claim that `create_app` registers routes for all five
advertised operations fails on this code: `routes/classes.py` imports
`get_db_session`, which `app/db.py` does not define, so the single
blueprint-registration block aborts and every `create_app()` result
carries only the four fallback routes — no signup/login, class-creation,
enrollment, attendance-marking or SSE-stream route is registered (the
Attendance blueprint is not even imported by `create_app`). -/
theorem c1_operation_routes_missing (w : World) :
    classes_import_ok = false
  ∧ create_app w = fallback_routes
  ∧ lookupRoute (create_app w) "POST" "/auth/signup" = none
  ∧ lookupRoute (create_app w) "POST" "/auth/login" = none
  ∧ lookupRoute (create_app w) "POST" "/classes" = none
  ∧ lookupRoute (create_app w) "POST" "/classes/<int:class_id>/enroll" = none
  ∧ lookupRoute (create_app w) "POST" "/attendance" = none
  ∧ lookupRoute (create_app w) "GET" "/attendance/stream" = none := by
  have hok : classes_import_ok = false := by decide
  have hca : create_app w = fallback_routes := by
    simp [create_app, hok]
  rw [hca]
  refine ⟨hok, rfl, ?_, ?_, ?_, ?_, ?_, ?_⟩ <;> decide

end Factory

end AttendanceTracker
